import Mathlib

/-!
Shallow embedding of `src/render2/pipeline.rs` of `bevy_ecs_tilemap`.

The file embeds, straight from the Rust source:
  * the bitfield pipeline key `TilemapPipelineKey` with its
    `from_msaa_samples` / `msaa_samples` encode/decode pair
    (u32 arithmetic is modelled as `Nat` with explicit `% 2^32`;
    the wrapping subtraction `msaa_samples - 1` follows release-mode
    two's-complement semantics);
  * `TilemapPipeline::specialize`, producing a full
    `RenderPipelineDescriptor`;
  * the per-frame bind-group systems `queue_transform_bind_group`,
    `queue_tilemap_bind_group` and `queue_meshes` (ECS commands become
    explicit state passing; `render_device.create_bind_group` is modelled
    as a pure allocator threading a fresh-id counter, so allocations can
    be counted and bind-group instances compared);
  * the `DrawMesh` render command (the rendering pass becomes a list of
    emitted pass operations; a Rust `panic!` / `.unwrap()` failure becomes
    `Except.error`).

Host-engine (bevy) behaviour that the code relies on but that is not in
this repository — the `Option` returned by a dynamic uniform buffer's
`binding()`, and the transparent phase's ascending sort by sort key — is
modelled from the spec and marked as such on the definitions.
-/

namespace TilemapRender

/-! ### The pipeline key (`TilemapPipelineKey`) -/

/-- `2^32`, the modulus of u32 arithmetic. -/
def U32_MOD : Nat := 2 ^ 32

/-- `TilemapPipelineKey` is a `bitflags` newtype over `u32`. -/
structure TilemapPipelineKey where
  bits : Nat
deriving DecidableEq

/-- `TilemapPipelineKey::MSAA_MASK_BITS = 0b111111`. -/
def MSAA_MASK_BITS : Nat := 0b111111

/-- `TilemapPipelineKey::MSAA_SHIFT_BITS = 32 - 6`. -/
def MSAA_SHIFT_BITS : Nat := 32 - 6

/-- The bits of all declared flags: `NONE | MSAA_RESERVED_BITS`, i.e.
`MSAA_MASK_BITS << MSAA_SHIFT_BITS`. -/
def ALL_FLAG_BITS : Nat := MSAA_MASK_BITS <<< MSAA_SHIFT_BITS

/-- `bitflags`' generated `from_bits`: succeeds iff no bit outside the
declared flags is set (`bits & !Self::all().bits() == 0`, with `!` the u32
complement). -/
def from_bits (bits : Nat) : Option TilemapPipelineKey :=
  if bits &&& (U32_MOD - 1 - ALL_FLAG_BITS) = 0 then some ⟨bits⟩ else none

/-- Wrapping u32 subtraction of 1, the release-mode semantics of
`msaa_samples - 1` in the source (debug builds would panic on underflow at
`msaa_samples == 0`). -/
def wrappingSub1 (n : Nat) : Nat := (n + (U32_MOD - 1)) % U32_MOD

/-- `TilemapPipelineKey::from_msaa_samples`:
`((msaa_samples - 1) & MSAA_MASK_BITS) << MSAA_SHIFT_BITS`, then
`from_bits(..).unwrap()`; the `unwrap` is kept as the `Option`. -/
def from_msaa_samples (msaa_samples : Nat) : Option TilemapPipelineKey :=
  let msaa_bits :=
    ((wrappingSub1 msaa_samples &&& MSAA_MASK_BITS) <<< MSAA_SHIFT_BITS) % U32_MOD
  from_bits msaa_bits

/-- `TilemapPipelineKey::msaa_samples`:
`((self.bits >> MSAA_SHIFT_BITS) & MSAA_MASK_BITS) + 1`. -/
def msaa_samples (k : TilemapPipelineKey) : Nat :=
  ((k.bits >>> MSAA_SHIFT_BITS) &&& MSAA_MASK_BITS) + 1

/-! Auxiliary arithmetic for the encode/decode pair. -/

theorem and_mask_eq_mod (w : Nat) : w &&& MSAA_MASK_BITS = w % 64 := by
  have h := Nat.and_pow_two_sub_one_eq_mod w 6
  simpa [MSAA_MASK_BITS] using h

theorem and_low26_eq_mod (w : Nat) : w &&& (U32_MOD - 1 - ALL_FLAG_BITS) = w % 2 ^ 26 := by
  have h := Nat.and_pow_two_sub_one_eq_mod w 26
  have : U32_MOD - 1 - ALL_FLAG_BITS = 2 ^ 26 - 1 := by
    simp [U32_MOD, ALL_FLAG_BITS, MSAA_MASK_BITS, MSAA_SHIFT_BITS, Nat.shiftLeft_eq]
  rw [this, h]

/-- Decoding the encoding of any `n : u32` yields
`((n -wrap 1) % 64) + 1`, and the inner `from_bits(..).unwrap()` always
succeeds. -/
theorem from_msaa_samples_eq (n : Nat) :
    (from_msaa_samples n).map msaa_samples = some (wrappingSub1 n % 64 + 1) := by
  set w := wrappingSub1 n with hw
  have hy : w &&& MSAA_MASK_BITS = w % 64 := and_mask_eq_mod w
  set y := w % 64 with hydef
  have hylt : y < 64 := Nat.mod_lt _ (by norm_num)
  have hshift : (y <<< MSAA_SHIFT_BITS) = y * 2 ^ 26 := by
    rw [Nat.shiftLeft_eq]; rfl
  have hlt : y * 2 ^ 26 < U32_MOD := by
    have : y * 2 ^ 26 ≤ 63 * 2 ^ 26 := Nat.mul_le_mul_right _ (by omega)
    simp only [U32_MOD]; omega
  have hmod : (y <<< MSAA_SHIFT_BITS) % U32_MOD = y * 2 ^ 26 := by
    rw [hshift, Nat.mod_eq_of_lt hlt]
  have hsubset : (y * 2 ^ 26) &&& (U32_MOD - 1 - ALL_FLAG_BITS) = 0 := by
    rw [and_low26_eq_mod, Nat.mul_mod_left]
  have hdec : msaa_samples ⟨y * 2 ^ 26⟩ = y + 1 := by
    unfold msaa_samples
    have h1 : (y * 2 ^ 26) >>> MSAA_SHIFT_BITS = y := by
      have : MSAA_SHIFT_BITS = 26 := rfl
      rw [this, Nat.shiftRight_eq_div_pow, Nat.mul_div_cancel _ (by norm_num : 0 < 2 ^ 26)]
    rw [h1, and_mask_eq_mod, Nat.mod_eq_of_lt hylt]
  unfold from_msaa_samples from_bits
  simp only [hy, ← hydef, hmod, hsubset, if_pos rfl, Option.map_some]
  exact congrArg some hdec

/-- C1: for every sample count `n` with `1 ≤ n ≤ 64`, decoding the pipeline
key produced by encoding `n` returns `n` exactly:
`TilemapPipelineKey::from_msaa_samples(n).msaa_samples() == n` (the
`from_bits(..).unwrap()` inside the encoder succeeds as well). -/
theorem from_msaa_samples_roundtrip (n : Nat) (h1 : 1 ≤ n) (h2 : n ≤ 64) :
    (from_msaa_samples n).map msaa_samples = some n := by
  rw [from_msaa_samples_eq]
  have hws : wrappingSub1 n = n - 1 := by
    unfold wrappingSub1 U32_MOD
    omega
  rw [hws]
  have : (n - 1) % 64 = n - 1 := Nat.mod_eq_of_lt (by omega)
  rw [this]
  exact congrArg some (by omega)

/-- Witness for C1 at `n = 5`. -/
theorem from_msaa_samples_roundtrip_witness :
    (from_msaa_samples 5).map msaa_samples = some 5 :=
  from_msaa_samples_roundtrip 5 (by decide) (by decide)

/-- C2 counterexample: encoding the out-of-range sample count `n = 65`
does not reject (the encoder returns a key, `unwrap` succeeds) and does
not saturate (the decoded count is not 64): it silently decodes to `1`,
a sample count different from 65. -/
theorem from_msaa_samples_65_silently_wraps :
    (from_msaa_samples 65).map msaa_samples = some 1 ∧
      (1 : Nat) ≠ 65 ∧ (1 : Nat) ≠ 64 := by
  refine ⟨?_, by decide, by decide⟩
  have h := from_msaa_samples_eq 65
  simpa [wrappingSub1, U32_MOD] using h

/-- C2 (amended): the encode/decode pair never rejects and silently wraps
modulo 64: for every u32 sample count `n < 2^32`, decoding the encoding of
`n` yields `(n - 1) % 64 + 1` when `n ≥ 1` (so `n = 65` decodes to 1), and
`n = 0` underflows in wrapping u32 arithmetic and decodes to 64. -/
theorem from_msaa_samples_wraps (n : Nat) (h : n < U32_MOD) :
    (from_msaa_samples n).map msaa_samples =
      some (if n = 0 then 64 else (n - 1) % 64 + 1) := by
  rw [from_msaa_samples_eq]
  rcases Nat.eq_zero_or_pos n with h0 | h0
  · subst h0
    simp only [if_pos rfl]
    unfold wrappingSub1 U32_MOD
    norm_num
  · have hn : n ≠ 0 := by omega
    simp only [if_neg hn]
    have hws : wrappingSub1 n = n - 1 := by
      unfold wrappingSub1 U32_MOD
      unfold U32_MOD at h
      omega
    rw [hws]

/-- Witness for C2's amended theorem at `n = 65`. -/
theorem from_msaa_samples_wraps_witness :
    (from_msaa_samples 65).map msaa_samples =
      some (if (65 : Nat) = 0 then 64 else (65 - 1) % 64 + 1) :=
  from_msaa_samples_wraps 65 (by norm_num [U32_MOD])

/-! ### The render-pipeline descriptor and `TilemapPipeline::specialize` -/

/-- `wgpu` vertex attribute formats used by this pipeline. -/
inductive VertexFormat
  | Float32x3
  | Sint32x4
  | Float32x4
deriving DecidableEq

/-- `wgpu::VertexAttribute`. -/
structure VertexAttribute where
  format : VertexFormat
  offset : Nat
  shader_location : Nat
deriving DecidableEq

inductive VertexStepMode
  | Vertex
  | Instance
deriving DecidableEq

/-- `wgpu::VertexBufferLayout`. -/
structure VertexBufferLayout where
  array_stride : Nat
  step_mode : VertexStepMode
  attributes : List VertexAttribute
deriving DecidableEq

/-- `VertexState`; the shader handle is the asset id of
`TILEMAP_SHADER_HANDLE`. -/
structure VertexState where
  shader : Nat
  entry_point : String
  shader_defs : List String
  buffers : List VertexBufferLayout
deriving DecidableEq

inductive BlendFactor
  | SrcAlpha
  | OneMinusSrcAlpha
  | One
deriving DecidableEq

inductive BlendOperation
  | Add
deriving DecidableEq

structure BlendComponent where
  src_factor : BlendFactor
  dst_factor : BlendFactor
  operation : BlendOperation
deriving DecidableEq

structure BlendState where
  color : BlendComponent
  alpha : BlendComponent
deriving DecidableEq

/-- Texture formats; `bevyDefault` stands for
`TextureFormat::bevy_default()`. -/
inductive TextureFormat
  | bevyDefault
deriving DecidableEq

/-- `wgpu::ColorWrites` bit mask; `ColorWrites::ALL = 0xF`. -/
def ColorWrites_ALL : Nat := 0xF

structure ColorTargetState where
  format : TextureFormat
  blend : Option BlendState
  write_mask : Nat
deriving DecidableEq

structure FragmentState where
  shader : Nat
  shader_defs : List String
  entry_point : String
  targets : List ColorTargetState
deriving DecidableEq

inductive FrontFace
  | Ccw
deriving DecidableEq

inductive Face
  | Back
deriving DecidableEq

inductive PolygonMode
  | Fill
deriving DecidableEq

inductive PrimitiveTopology
  | TriangleList
deriving DecidableEq

inductive IndexFormat
  | Uint16
  | Uint32
deriving DecidableEq

structure PrimitiveState where
  front_face : FrontFace
  cull_mode : Option Face
  polygon_mode : PolygonMode
  clamp_depth : Bool
  conservative : Bool
  topology : PrimitiveTopology
  strip_index_format : Option IndexFormat
deriving DecidableEq

structure MultisampleState where
  count : Nat
  mask : Nat
  alpha_to_coverage_enabled : Bool
deriving DecidableEq

/-- A GPU bind-group-layout object, identified by the id the render device
assigned when it was created (`FromWorld` creates four of them; their
entry lists never matter to the claims, only their identity). -/
structure BindGroupLayout where
  id : Nat
deriving DecidableEq

/-- `TilemapPipeline`: the four bind group layouts created in
`FromWorld`. -/
structure TilemapPipeline where
  view_layout : BindGroupLayout
  uniform_layout : BindGroupLayout
  material_layout : BindGroupLayout
  mesh_layout : BindGroupLayout
deriving DecidableEq

/-- `RenderPipelineDescriptor` (the fields `specialize` fills in;
`depth_stencil` is never populated by this code, so its payload type is
left trivial). -/
structure RenderPipelineDescriptor where
  vertex : VertexState
  fragment : Option FragmentState
  layout : Option (List BindGroupLayout)
  primitive : PrimitiveState
  depth_stencil : Option Unit
  multisample : MultisampleState
  label : Option String
deriving DecidableEq

/-- The asset id of `TILEMAP_SHADER_HANDLE`
(`HandleUntyped::weak_from_u64(Shader::TYPE_UUID, 8094008129742001941)`). -/
def TILEMAP_SHADER_HANDLE : Nat := 8094008129742001941

/-- `TilemapPipeline::specialize`, field by field from the source. The
`key` parameter is accepted but — as in the source, where the multisample
count reads `count: 1, //key.msaa_samples()` — never used. -/
def specialize (self : TilemapPipeline) (key : TilemapPipelineKey) :
    RenderPipelineDescriptor :=
  { vertex :=
      { shader := TILEMAP_SHADER_HANDLE
        entry_point := "vertex"
        shader_defs := []
        buffers :=
          [{ array_stride := 44
             step_mode := VertexStepMode.Vertex
             attributes :=
               -- Position first (though not first in the buffer: Mesh sorts
               -- attributes alphabetically), then Uv, then Color
               [{ format := VertexFormat.Float32x3
                  offset := 16
                  shader_location := 0 },
                -- Uv
                { format := VertexFormat.Sint32x4
                  offset := 28
                  shader_location := 1 },
                -- Color
                { format := VertexFormat.Float32x4
                  offset := 0
                  shader_location := 2 }] }] }
    fragment := some
      { shader := TILEMAP_SHADER_HANDLE
        shader_defs := []
        entry_point := "fragment"
        targets :=
          [{ format := TextureFormat.bevyDefault
             blend := some
               { color :=
                   { src_factor := BlendFactor.SrcAlpha
                     dst_factor := BlendFactor.OneMinusSrcAlpha
                     operation := BlendOperation.Add }
                 alpha :=
                   { src_factor := BlendFactor.One
                     dst_factor := BlendFactor.One
                     operation := BlendOperation.Add } }
             write_mask := ColorWrites_ALL }] }
    layout := some
      [self.view_layout, self.mesh_layout, self.uniform_layout,
        self.material_layout]
    primitive :=
      { front_face := FrontFace.Ccw
        cull_mode := some Face.Back
        polygon_mode := PolygonMode.Fill
        clamp_depth := false
        conservative := false
        topology := PrimitiveTopology.TriangleList
        strip_index_format := none }
    depth_stencil := none
    multisample :=
      { count := 1
        mask := U32_MOD - 1
        alpha_to_coverage_enabled := false }
    label := some "tilemap_pipeline" }

/-- C3: for every pipeline key, the descriptor returned by
`TilemapPipeline::specialize` has multisample count 1, regardless of the
sample count encoded in the key. -/
theorem specialize_multisample_count_one
    (self : TilemapPipeline) (key : TilemapPipelineKey) :
    (specialize self key).multisample.count = 1 := rfl

/-- C4: for every pipeline key, the vertex buffer layout produced by
`specialize` is the fixed interleaved layout: stride 44, three attributes
in shader-location order — position `Float32x3` at offset 16 (location 0),
UV `Sint32x4` at offset 28 (location 1), color `Float32x4` at offset 0
(location 2) — the byte offsets following the alphabetic (color, position,
uv) buffer order, not declaration order. -/
theorem specialize_vertex_buffer_layout
    (self : TilemapPipeline) (key : TilemapPipelineKey) :
    (specialize self key).vertex.buffers =
      [{ array_stride := 44
         step_mode := VertexStepMode.Vertex
         attributes :=
           [{ format := VertexFormat.Float32x3, offset := 16, shader_location := 0 },
            { format := VertexFormat.Sint32x4, offset := 28, shader_location := 1 },
            { format := VertexFormat.Float32x4, offset := 0, shader_location := 2 }] }] :=
  rfl

/-- C10: `specialize` is a constant function of its key: with the pipeline
layouts fixed, any two keys produce identical descriptors in every
field. -/
theorem specialize_const_in_key
    (self : TilemapPipeline) (k1 k2 : TilemapPipelineKey) :
    specialize self k1 = specialize self k2 := rfl

/-! ### Bind groups and the per-frame queue systems -/

/-- A binding resource recorded in a bind-group entry: a uniform-buffer
binding, a texture view, or a sampler, each identified by its GPU resource
id. -/
inductive BindingResource
  | buffer (id : Nat)
  | textureView (id : Nat)
  | sampler (id : Nat)
deriving DecidableEq

/-- `wgpu::BindGroupEntry`. -/
structure BindGroupEntry where
  binding : Nat
  resource : BindingResource
deriving DecidableEq

/-- A GPU bind group: the fresh id the render device assigned at creation
plus the descriptor it was created from, so that distinct allocations are
distinguishable and the claims can inspect what a group was built from. -/
structure BindGroup where
  id : Nat
  label : String
  layout : BindGroupLayout
  entries : List BindGroupEntry
deriving DecidableEq

/-- `render_device.create_bind_group`, modelled as a pure allocator: the
device's next fresh id comes in, the created group and the bumped counter
come out. -/
def create_bind_group (alloc : Nat) (label : String) (layout : BindGroupLayout)
    (entries : List BindGroupEntry) : BindGroup × Nat :=
  ({ id := alloc, label := label, layout := layout, entries := entries }, alloc + 1)

/-- `MeshUniform { transform: Mat4 }`; the f32 matrix entries are never
inspected by any claim, so they are modelled as integers. -/
structure MeshUniform where
  transform : List (List Int)
deriving DecidableEq

/-- `TilemapUniformData` (external, consumed only); its fields are never
inspected here. -/
structure TilemapUniformData where
  data : Nat
deriving DecidableEq

/-- Modelled from the spec: `ComponentUniforms<T>` — bevy's per-frame
dynamic uniform buffer for `T`, which is host-engine code not in this
repository — holds the values written this frame, and
`uniforms().binding()` returns a buffer binding iff the buffer is
non-empty ("has at least one binding"). -/
structure ComponentUniforms (T : Type) where
  entries : List T
  bufferId : Nat

/-- Modelled from the spec: `binding()` of the dynamic uniform buffer. -/
def ComponentUniforms.binding {T : Type} (u : ComponentUniforms T) :
    Option BindingResource :=
  if u.entries.isEmpty then none else some (BindingResource.buffer u.bufferId)

/-- `TransformBindGroup` resource. -/
structure TransformBindGroup where
  value : BindGroup
deriving DecidableEq

/-- `TilemapUniformDataBindGroup` resource. -/
structure TilemapUniformDataBindGroup where
  value : BindGroup
deriving DecidableEq

/-- `queue_transform_bind_group`: when the `MeshUniform` dynamic uniform
buffer has a binding, create the bind group on the mesh layout and issue
`insert_resource` for it (the issued command is the returned `Option`);
otherwise issue nothing. Also returns the device's fresh-id counter. -/
def queue_transform_bind_group (tilemap_pipeline : TilemapPipeline) (alloc : Nat)
    (transform_uniforms : ComponentUniforms MeshUniform) :
    Option TransformBindGroup × Nat :=
  match transform_uniforms.binding with
  | some b =>
      let (bg, alloc') := create_bind_group alloc "transform_bind_group"
        tilemap_pipeline.mesh_layout [{ binding := 0, resource := b }]
      (some { value := bg }, alloc')
  | none => (none, alloc)

/-- `queue_tilemap_bind_group`: the same for the `TilemapUniformData`
dynamic uniform buffer, on the uniform layout. -/
def queue_tilemap_bind_group (tilemap_pipeline : TilemapPipeline) (alloc : Nat)
    (tilemap_uniforms : ComponentUniforms TilemapUniformData) :
    Option TilemapUniformDataBindGroup × Nat :=
  match tilemap_uniforms.binding with
  | some b =>
      let (bg, alloc') := create_bind_group alloc "tilemap_bind_group"
        tilemap_pipeline.uniform_layout [{ binding := 0, resource := b }]
      (some { value := bg }, alloc')
  | none => (none, alloc)

/-- The effect of a frame's command queue on a singleton resource: an
issued `insert_resource` fully replaces whatever was there; no command
leaves the previous resource in place. -/
def applyInsert {T : Type} (cmd : Option T) (prev : Option T) : Option T :=
  match cmd with
  | some r => some r
  | none => prev

/-! ### `queue_meshes` -/

/-- An extracted tilemap chunk as `queue_meshes` queries it:
`(Entity, &LayerId, &Handle<Image>, &MeshUniform) With<Handle<Mesh>>`.
`layer` is the `u16` inside `LayerId`; `image` is the asset id of the
`Handle<Image>` (handle value equality is id equality). -/
structure ExtractedMesh where
  entity : Nat
  layer : Nat
  image : Nat
deriving DecidableEq

/-- The GPU side of an image (a `RenderAssets<Image>` entry): its texture
view and sampler resource ids. -/
structure GpuImage where
  texture_view : Nat
  sampler : Nat
deriving DecidableEq

/-- Association-list lookup by key equality, modelling `HashMap` /
`RenderAssets` lookup keyed by asset-id value equality. -/
def lookup {α : Type} : List (Nat × α) → Nat → Option α
  | [], _ => none
  | (k', v) :: rest, k => if k' = k then some v else lookup rest k

/-- A `Transparent2d` draw item added to the phase. The real sort key is
`FloatOrd(layer_id.0 as f32)`; every `u16` is below `2^24` and therefore
converts to `f32` exactly, so the cast is injective and strictly monotone
and the key is faithfully modelled by the layer id itself as a `Nat`. -/
structure Transparent2dItem where
  entity : Nat
  draw_function : Nat
  pipeline : Nat
  sort_key : Nat
deriving DecidableEq

/-- `SpecializedPipelines::specialize(&mut cache, &pipeline, key)` returns
the `CachedPipelineId` for the key; the cache is keyed by key equality, so
the id is a function of the key. -/
def cachedPipelineId (key : TilemapPipelineKey) : Nat := key.bits

/-- The draw item `queue_meshes` appends for one extracted mesh:
`Transparent2d { entity, draw_function: draw_tilemap, pipeline,
sort_key: FloatOrd(layer_id.0 as f32) }`. -/
def mkTilemapItem (draw_tilemap : Nat) (msaa_key : TilemapPipelineKey)
    (m : ExtractedMesh) : Transparent2dItem :=
  { entity := m.entity
    draw_function := draw_tilemap
    pipeline := cachedPipelineId msaa_key
    sort_key := m.layer }

/-- The material bind-group cache update in `queue_meshes`
(`image_bind_groups.values.entry(image.clone_weak()).or_insert_with(..)`):
look the image handle up in the cache; on a miss, fetch the GPU image
(`gpu_images.get(&image).unwrap()` — a missing GPU image panics, modelled
as `Except.error`) and create the bind group from that image's texture
view and sampler under the material layout. Returns the updated cache,
the device counter, and the cached-or-created group. -/
def getOrCreateImageBindGroup (material_layout : BindGroupLayout)
    (gpu_images : List (Nat × GpuImage)) (cache : List (Nat × BindGroup))
    (alloc : Nat) (image : Nat) :
    Except String (List (Nat × BindGroup) × Nat × BindGroup) :=
  match lookup cache image with
  | some bg => .ok (cache, alloc, bg)
  | none =>
      match lookup gpu_images image with
      | none => .error "called Option::unwrap() on a None value"
      | some gpu_image =>
          let (bg, alloc') := create_bind_group alloc "sprite_material_bind_group"
            material_layout
            [{ binding := 0,
               resource := BindingResource.textureView gpu_image.texture_view },
             { binding := 1,
               resource := BindingResource.sampler gpu_image.sampler }]
          .ok (cache ++ [(image, bg)], alloc', bg)

/-- The inner mesh loop of `queue_meshes`: for each queried mesh entity,
ensure its material bind group exists and append its draw item to the
view's phase. -/
def queueMeshList (material_layout : BindGroupLayout)
    (gpu_images : List (Nat × GpuImage)) (draw_tilemap : Nat)
    (msaa_key : TilemapPipelineKey) (cache : List (Nat × BindGroup))
    (alloc : Nat) (phase : List Transparent2dItem) :
    List ExtractedMesh →
      Except String (List (Nat × BindGroup) × Nat × List Transparent2dItem)
  | [] => .ok (cache, alloc, phase)
  | m :: ms =>
      match getOrCreateImageBindGroup material_layout gpu_images cache alloc m.image with
      | .error e => .error e
      | .ok (cache', alloc', _bg) =>
          queueMeshList material_layout gpu_images draw_tilemap msaa_key cache' alloc'
            (phase ++ [mkTilemapItem draw_tilemap msaa_key m]) ms

/-- The result state of `queue_meshes`: the material cache, the device
counter, the per-view `TilemapViewBindGroup` inserts issued, and each
view's transparent phase. -/
structure QueueResult where
  imageBindGroups : List (Nat × BindGroup)
  alloc : Nat
  viewBindGroups : List (Nat × BindGroup)
  phases : List (Nat × List Transparent2dItem)
deriving DecidableEq

/-- The view loop of `queue_meshes`: per view, create and insert the view
bind group, resolve the registered `DrawTilemap` draw-function id
(`.get_id::<DrawTilemap>().unwrap()` — an unregistered function panics),
then run the mesh loop against this view's phase. -/
def queueViewList (pipeline : TilemapPipeline) (vb : BindingResource)
    (draw_tilemap : Option Nat) (msaa_key : TilemapPipelineKey)
    (gpu_images : List (Nat × GpuImage)) (meshes : List ExtractedMesh)
    (cache : List (Nat × BindGroup)) (alloc : Nat) :
    List (Nat × List Transparent2dItem) → Except String QueueResult
  | [] => .ok { imageBindGroups := cache, alloc := alloc, viewBindGroups := [], phases := [] }
  | (v, phase) :: views =>
      let (vbg, alloc1) := create_bind_group alloc "tilemap_view_bind_group"
        pipeline.view_layout [{ binding := 0, resource := vb }]
      match draw_tilemap with
      | none => .error "called Option::unwrap() on a None value"
      | some d =>
          match queueMeshList pipeline.material_layout gpu_images d msaa_key cache alloc1
              phase meshes with
          | .error e => .error e
          | .ok (cache', alloc', phase') =>
              match queueViewList pipeline vb draw_tilemap msaa_key gpu_images meshes
                  cache' alloc' views with
              | .error e => .error e
              | .ok r =>
                  .ok { imageBindGroups := r.imageBindGroups
                        alloc := r.alloc
                        viewBindGroups := (v, vbg) :: r.viewBindGroups
                        phases := (v, phase') :: r.phases }

/-- The body of `queue_meshes` once the view binding is known to exist:
the msaa-key `Option` is the result of
`TilemapPipelineKey::from_msaa_samples(msaa.samples)`, whose inner
`unwrap` is kept as the match. -/
def queue_meshes_with_view (pipeline : TilemapPipeline) (vb : BindingResource)
    (draw_tilemap : Option Nat) (msaa_key? : Option TilemapPipelineKey)
    (gpu_images : List (Nat × GpuImage))
    (image_bind_groups : List (Nat × BindGroup)) (alloc : Nat)
    (meshes : List ExtractedMesh)
    (views : List (Nat × List Transparent2dItem)) : Except String QueueResult :=
  match msaa_key? with
  | none => .error "called Option::unwrap() on a None value"
  | some msaa_key =>
      queueViewList pipeline vb draw_tilemap msaa_key gpu_images meshes
        image_bind_groups alloc views

/-- `queue_meshes`: nothing at all happens unless the per-frame view
uniform binding exists (`if let Some(view_binding) =
view_uniforms.uniforms.binding()`); with it, the msaa key is computed and
every view is processed. -/
def queue_meshes (pipeline : TilemapPipeline)
    (view_binding : Option BindingResource) (draw_tilemap : Option Nat)
    (msaaSamples : Nat) (gpu_images : List (Nat × GpuImage))
    (image_bind_groups : List (Nat × BindGroup)) (alloc : Nat)
    (meshes : List ExtractedMesh)
    (views : List (Nat × List Transparent2dItem)) : Except String QueueResult :=
  match view_binding with
  | none =>
      .ok { imageBindGroups := image_bind_groups, alloc := alloc,
            viewBindGroups := [], phases := views }
  | some vb =>
      queue_meshes_with_view pipeline vb draw_tilemap
        (from_msaa_samples msaaSamples) gpu_images image_bind_groups alloc
        meshes views

/-! ### The phase sort (modelled from the spec) -/

/-- Modelled from the spec: the host's transparent-2d phase sorts its
items by ascending sort key before drawing ("the phase's final draw order
is determined entirely by sort key ascending"); insertion step. -/
def insertItem (x : Transparent2dItem) :
    List Transparent2dItem → List Transparent2dItem
  | [] => [x]
  | y :: ys => if x.sort_key ≤ y.sort_key then x :: y :: ys else y :: insertItem x ys

/-- Modelled from the spec: insertion sort of a phase by ascending sort
key. -/
def sortPhase : List Transparent2dItem → List Transparent2dItem
  | [] => []
  | x :: xs => insertItem x (sortPhase xs)

/-- Insertion step of the reference order: meshes by ascending layer id. -/
def insertMesh (x : ExtractedMesh) : List ExtractedMesh → List ExtractedMesh
  | [] => [x]
  | y :: ys => if x.layer ≤ y.layer then x :: y :: ys else y :: insertMesh x ys

/-- Insertion sort of extracted meshes by ascending layer id. -/
def sortMeshesByLayer : List ExtractedMesh → List ExtractedMesh
  | [] => []
  | x :: xs => insertMesh x (sortMeshesByLayer xs)

/-! ### `DrawMesh` -/

/-- An operation recorded against the tracked render pass. -/
inductive RenderPassOp
  | setVertexBuffer (slot : Nat) (buffer : Nat)
  | setIndexBuffer (buffer : Nat) (offset : Nat) (format : IndexFormat)
  | drawIndexed (indexStart indexEnd : Nat) (base : Int)
      (instanceStart instanceEnd : Nat)
deriving DecidableEq

/-- The index data of a GPU mesh (`index_info`). -/
structure GpuMeshIndexInfo where
  buffer : Nat
  count : Nat
  index_format : IndexFormat
deriving DecidableEq

/-- A GPU mesh (`RenderAssets<Mesh>` entry): vertex buffer plus optional
index data. -/
structure GpuMesh where
  vertex_buffer : Nat
  index_info : Option GpuMeshIndexInfo
deriving DecidableEq

/-- `DrawMesh::render`: look up the item's mesh handle
(`mesh_query.get(item.entity).unwrap()`) and its GPU mesh
(`meshes.get(mesh_handle).unwrap()`), bind the vertex buffer, then — when
index data is present — bind the index buffer and issue one indexed draw
over `0..count` (`pass.draw_indexed(0..index_info.count, 0, 0..1)`). A
non-indexed mesh is `panic!("non-indexed drawing not supported yet")`;
panics and failed unwraps become `Except.error`, an aborted pass that
issues no draw call. -/
def DrawMesh_render (meshes : List (Nat × GpuMesh))
    (mesh_handles : List (Nat × Nat)) (item : Transparent2dItem) :
    Except String (List RenderPassOp) :=
  match lookup mesh_handles item.entity with
  | none => .error "called Option::unwrap() on a None value"
  | some mesh_handle =>
      match lookup meshes mesh_handle with
      | none => .error "called Option::unwrap() on a None value"
      | some gpu_mesh =>
          match gpu_mesh.index_info with
          | some index_info =>
              .ok [RenderPassOp.setVertexBuffer 0 gpu_mesh.vertex_buffer,
                   RenderPassOp.setIndexBuffer index_info.buffer 0 index_info.index_format,
                   RenderPassOp.drawIndexed 0 index_info.count 0 0 1]
          | none => .error "non-indexed drawing not supported yet"

/-! ### Theorems about the queue systems and `DrawMesh` -/

/-- C6: if the per-frame view uniform binding is absent, `queue_meshes`
queues no draw items for any view (every view's transparent phase is
returned untouched), inserts no view bind groups, touches neither the
material cache nor the device allocator, and does not panic (the result
is `.ok`, never `.error`). -/
theorem queue_meshes_skips_without_view_binding
    (pipeline : TilemapPipeline) (draw_tilemap : Option Nat) (msaaSamples : Nat)
    (gpu_images : List (Nat × GpuImage)) (image_bind_groups : List (Nat × BindGroup))
    (alloc : Nat) (meshes : List ExtractedMesh)
    (views : List (Nat × List Transparent2dItem)) :
    queue_meshes pipeline none draw_tilemap msaaSamples gpu_images image_bind_groups
        alloc meshes views =
      .ok { imageBindGroups := image_bind_groups, alloc := alloc,
            viewBindGroups := [], phases := views } := rfl

/-- C7: `queue_transform_bind_group` issues its `insert_resource` iff the
`MeshUniform` dynamic uniform buffer is non-empty, and likewise
`queue_tilemap_bind_group` for `TilemapUniformData`; when a buffer is
empty no resource is inserted (the previous resource is what the command
queue leaves), and when non-empty the newly created bind group — built on
the respective layout from the buffer's binding — fully replaces any prior
frame's resource. -/
theorem queue_bind_groups_iff_nonempty
    (p : TilemapPipeline) (a b : Nat)
    (tu : ComponentUniforms MeshUniform)
    (uu : ComponentUniforms TilemapUniformData)
    (prevT : Option TransformBindGroup)
    (prevU : Option TilemapUniformDataBindGroup) :
    ((queue_transform_bind_group p a tu).1 =
      if tu.entries.isEmpty then none
      else some { value := (create_bind_group a "transform_bind_group" p.mesh_layout
        [{ binding := 0, resource := BindingResource.buffer tu.bufferId }]).1 }) ∧
    (applyInsert (queue_transform_bind_group p a tu).1 prevT =
      if tu.entries.isEmpty then prevT
      else some { value := (create_bind_group a "transform_bind_group" p.mesh_layout
        [{ binding := 0, resource := BindingResource.buffer tu.bufferId }]).1 }) ∧
    ((queue_tilemap_bind_group p b uu).1 =
      if uu.entries.isEmpty then none
      else some { value := (create_bind_group b "tilemap_bind_group" p.uniform_layout
        [{ binding := 0, resource := BindingResource.buffer uu.bufferId }]).1 }) ∧
    (applyInsert (queue_tilemap_bind_group p b uu).1 prevU =
      if uu.entries.isEmpty then prevU
      else some { value := (create_bind_group b "tilemap_bind_group" p.uniform_layout
        [{ binding := 0, resource := BindingResource.buffer uu.bufferId }]).1 }) := by
  by_cases ht : tu.entries.isEmpty <;> by_cases hu : uu.entries.isEmpty <;>
    simp [queue_transform_bind_group, queue_tilemap_bind_group,
      ComponentUniforms.binding, ht, hu, applyInsert, create_bind_group]

/-- The material bind group created for a GPU image: bound from the
image's texture view (binding 0) and sampler (binding 1) under the
material layout, with the device's fresh id. -/
def mkMaterialBindGroup (material_layout : BindGroupLayout) (alloc : Nat)
    (i : GpuImage) : BindGroup :=
  (create_bind_group alloc "sprite_material_bind_group" material_layout
    [{ binding := 0, resource := BindingResource.textureView i.texture_view },
     { binding := 1, resource := BindingResource.sampler i.sampler }]).1

/-- C8: within one frame, with two distinct image handles `h1 ≠ h2` whose
GPU images are present: the first touch of each handle creates its bind
group (exactly two allocations in total — the counter moves from `a` to
`a + 2`), each built from its own image's texture view and sampler; a
second lookup of either handle returns the already-created group with
cache and allocator unchanged (no duplicate allocation); the cache key is
image-handle value equality; and the two groups are distinct. -/
theorem image_bind_group_cache (ml : BindGroupLayout)
    (gi : List (Nat × GpuImage)) (a h1 h2 : Nat) (i1 i2 : GpuImage)
    (hne : h1 ≠ h2) (hg1 : lookup gi h1 = some i1) (hg2 : lookup gi h2 = some i2) :
    getOrCreateImageBindGroup ml gi [] a h1 =
      .ok ([(h1, mkMaterialBindGroup ml a i1)], a + 1, mkMaterialBindGroup ml a i1) ∧
    getOrCreateImageBindGroup ml gi [(h1, mkMaterialBindGroup ml a i1)] (a + 1) h2 =
      .ok ([(h1, mkMaterialBindGroup ml a i1), (h2, mkMaterialBindGroup ml (a + 1) i2)],
           a + 2, mkMaterialBindGroup ml (a + 1) i2) ∧
    getOrCreateImageBindGroup ml gi
        [(h1, mkMaterialBindGroup ml a i1), (h2, mkMaterialBindGroup ml (a + 1) i2)]
        (a + 2) h1 =
      .ok ([(h1, mkMaterialBindGroup ml a i1), (h2, mkMaterialBindGroup ml (a + 1) i2)],
           a + 2, mkMaterialBindGroup ml a i1) ∧
    getOrCreateImageBindGroup ml gi
        [(h1, mkMaterialBindGroup ml a i1), (h2, mkMaterialBindGroup ml (a + 1) i2)]
        (a + 2) h2 =
      .ok ([(h1, mkMaterialBindGroup ml a i1), (h2, mkMaterialBindGroup ml (a + 1) i2)],
           a + 2, mkMaterialBindGroup ml (a + 1) i2) ∧
    (mkMaterialBindGroup ml a i1).entries =
      [{ binding := 0, resource := BindingResource.textureView i1.texture_view },
       { binding := 1, resource := BindingResource.sampler i1.sampler }] ∧
    (mkMaterialBindGroup ml (a + 1) i2).entries =
      [{ binding := 0, resource := BindingResource.textureView i2.texture_view },
       { binding := 1, resource := BindingResource.sampler i2.sampler }] ∧
    mkMaterialBindGroup ml a i1 ≠ mkMaterialBindGroup ml (a + 1) i2 := by
  refine ⟨?_, ?_, ?_, ?_, rfl, rfl, ?_⟩
  · simp [getOrCreateImageBindGroup, lookup, hg1, mkMaterialBindGroup, create_bind_group]
  · simp [getOrCreateImageBindGroup, lookup, hne, hg2, mkMaterialBindGroup, create_bind_group]
  · simp [getOrCreateImageBindGroup, lookup]
  · simp [getOrCreateImageBindGroup, lookup, hne]
  · simp [mkMaterialBindGroup, create_bind_group]

/-- Witness for C8: image handles 7 and 8 with distinct GPU images; the
second lookup of handle 7 after both creations returns the first created
group with the cache and the allocation counter unchanged. -/
theorem image_bind_group_cache_witness :
    getOrCreateImageBindGroup ⟨3⟩ [(7, ⟨100, 200⟩), (8, ⟨101, 201⟩)]
        [(7, mkMaterialBindGroup ⟨3⟩ 0 ⟨100, 200⟩),
         (8, mkMaterialBindGroup ⟨3⟩ 1 ⟨101, 201⟩)] 2 7 =
      .ok ([(7, mkMaterialBindGroup ⟨3⟩ 0 ⟨100, 200⟩),
            (8, mkMaterialBindGroup ⟨3⟩ 1 ⟨101, 201⟩)],
           2, mkMaterialBindGroup ⟨3⟩ 0 ⟨100, 200⟩) :=
  (image_bind_group_cache ⟨3⟩ [(7, ⟨100, 200⟩), (8, ⟨101, 201⟩)] 0 7 8
    ⟨100, 200⟩ ⟨101, 201⟩ (by decide) (by decide) (by decide)).2.2.1

/-- On a cache miss with the GPU image present — and trivially on a cache
hit — the material-cache update succeeds. -/
theorem getOrCreateImageBindGroup_isSome (ml : BindGroupLayout)
    (gi : List (Nat × GpuImage)) (cache : List (Nat × BindGroup))
    (alloc : Nat) (img : Nat) (h : (lookup gi img).isSome = true) :
    ∃ cache' alloc' bg,
      getOrCreateImageBindGroup ml gi cache alloc img = .ok (cache', alloc', bg) := by
  rcases hil : lookup cache img with _ | bg
  · rcases hgl : lookup gi img with _ | gpu
    · rw [hgl] at h
      simp at h
    · refine ⟨cache ++ [(img, mkMaterialBindGroup ml alloc gpu)], alloc + 1,
        mkMaterialBindGroup ml alloc gpu, ?_⟩
      unfold getOrCreateImageBindGroup
      rw [hil, hgl]
      rfl
  · refine ⟨cache, alloc, bg, ?_⟩
    unfold getOrCreateImageBindGroup
    rw [hil]

/-- The mesh loop of `queue_meshes`, run with every referenced GPU image
present, succeeds and appends exactly the draw items
`mkTilemapItem draw_tilemap msaa_key m` to the phase, in query order. -/
theorem queueMeshList_ok (ml : BindGroupLayout) (gi : List (Nat × GpuImage))
    (d : Nat) (k : TilemapPipelineKey) :
    ∀ (ms : List ExtractedMesh), (∀ m ∈ ms, (lookup gi m.image).isSome = true) →
      ∀ cache alloc phase, ∃ cache' alloc',
        queueMeshList ml gi d k cache alloc phase ms =
          .ok (cache', alloc', phase ++ ms.map (mkTilemapItem d k)) := by
  intro ms
  induction ms with
  | nil =>
      intro _ cache alloc phase
      exact ⟨cache, alloc, by simp [queueMeshList]⟩
  | cons m rest ih =>
      intro h cache alloc phase
      obtain ⟨c1, a1, bg, heq⟩ := getOrCreateImageBindGroup_isSome ml gi cache alloc
        m.image (h m (List.mem_cons_self m rest))
      obtain ⟨c2, a2, hrec⟩ := ih (fun x hx => h x (List.mem_cons_of_mem m hx))
        c1 a1 (phase ++ [mkTilemapItem d k m])
      refine ⟨c2, a2, ?_⟩
      simp only [queueMeshList, heq, hrec, List.map_cons, List.append_assoc,
        List.singleton_append]

/-- Mapping meshes to their draw items commutes with one insertion step:
the item comparison is by `sort_key`, which is the mesh's layer id. -/
theorem insertItem_map (d : Nat) (k : TilemapPipelineKey) (m : ExtractedMesh) :
    ∀ l : List ExtractedMesh,
      insertItem (mkTilemapItem d k m) (l.map (mkTilemapItem d k)) =
        (insertMesh m l).map (mkTilemapItem d k) := by
  intro l
  induction l with
  | nil => rfl
  | cons y ys ih =>
      have hcond : ((mkTilemapItem d k m).sort_key ≤ (mkTilemapItem d k y).sort_key)
          = (m.layer ≤ y.layer) := rfl
      simp only [List.map_cons, insertItem, insertMesh, hcond]
      by_cases hle : m.layer ≤ y.layer
      · simp [hle]
      · simp [hle, ih]

/-- Sorting the phase by ascending sort key is sorting the meshes by
ascending layer id. -/
theorem sortPhase_map (d : Nat) (k : TilemapPipelineKey) :
    ∀ ms : List ExtractedMesh,
      sortPhase (ms.map (mkTilemapItem d k)) =
        (sortMeshesByLayer ms).map (mkTilemapItem d k) := by
  intro ms
  induction ms with
  | nil => rfl
  | cons m rest ih =>
      simp only [List.map_cons, sortPhase, sortMeshesByLayer, ih, insertItem_map]

/-- C5: with the view binding present and every referenced GPU image
uploaded, `queue_meshes` succeeds, and every draw item it queues into the
view's phase carries sort key equal to that entity's layer id (the `u16`
layer converts to `f32` exactly, so the `Nat` key models `FloatOrd(layer
as f32)` faithfully); consequently the phase's ascending sort-key order is
exactly ascending layer-id order: sorting the queued items by sort key
equals queueing the layer-sorted meshes. -/
theorem queue_meshes_sort_key_is_layer
    (p : TilemapPipeline) (vb : BindingResource) (d msaa : Nat)
    (gi : List (Nat × GpuImage)) (ibg : List (Nat × BindGroup)) (a : Nat)
    (ms : List ExtractedMesh) (v : Nat) (ph0 : List Transparent2dItem)
    (himg : ∀ m ∈ ms, (lookup gi m.image).isSome = true) :
    ∃ key r, from_msaa_samples msaa = some key ∧
      queue_meshes p (some vb) (some d) msaa gi ibg a ms [(v, ph0)] = .ok r ∧
      r.phases = [(v, ph0 ++ ms.map (mkTilemapItem d key))] ∧
      (∀ m : ExtractedMesh, (mkTilemapItem d key m).sort_key = m.layer) ∧
      sortPhase (ms.map (mkTilemapItem d key)) =
        (sortMeshesByLayer ms).map (mkTilemapItem d key) := by
  have hk := from_msaa_samples_eq msaa
  rcases hkey : from_msaa_samples msaa with _ | key
  · rw [hkey] at hk
    simp at hk
  obtain ⟨c1, a1, hml⟩ := queueMeshList_ok p.material_layout gi d key ms himg ibg (a + 1) ph0
  refine ⟨key,
    { imageBindGroups := c1, alloc := a1,
      viewBindGroups := [(v, (create_bind_group a "tilemap_view_bind_group"
        p.view_layout [{ binding := 0, resource := vb }]).1)],
      phases := [(v, ph0 ++ ms.map (mkTilemapItem d key))] },
    rfl, ?_, rfl, fun _ => rfl, sortPhase_map d key ms⟩
  have hqm : queue_meshes p (some vb) (some d) msaa gi ibg a ms [(v, ph0)]
      = queue_meshes_with_view p vb (some d) (from_msaa_samples msaa) gi ibg a
          ms [(v, ph0)] := rfl
  rw [hqm, hkey]
  show queueViewList p vb (some d) key gi ms ibg a [(v, ph0)] = _
  unfold queueViewList
  simp only [create_bind_group]
  rw [hml]
  rfl

/-- Witness for C5 with layers `[3, 1, 2]` on entities `[10, 11, 12]`: the
phase sorted by ascending sort key draws entity 11 (layer 1), then 12
(layer 2), then 10 (layer 3). -/
theorem queue_meshes_sort_key_witness :
    (∃ key r, from_msaa_samples 4 = some key ∧
      queue_meshes ⟨⟨0⟩, ⟨1⟩, ⟨2⟩, ⟨3⟩⟩ (some (BindingResource.buffer 50)) (some 9) 4
          [(7, ⟨100, 200⟩)] [] 0
          [⟨10, 3, 7⟩, ⟨11, 1, 7⟩, ⟨12, 2, 7⟩] [(1, [])] = .ok r ∧
      r.phases = [(1, [] ++ [⟨10, 3, 7⟩, ⟨11, 1, 7⟩, ⟨12, 2, 7⟩].map (mkTilemapItem 9 key))] ∧
      (∀ m : ExtractedMesh, (mkTilemapItem 9 key m).sort_key = m.layer) ∧
      sortPhase ([⟨10, 3, 7⟩, ⟨11, 1, 7⟩, ⟨12, 2, 7⟩].map (mkTilemapItem 9 key)) =
        (sortMeshesByLayer [⟨10, 3, 7⟩, ⟨11, 1, 7⟩, ⟨12, 2, 7⟩]).map (mkTilemapItem 9 key)) ∧
    (sortPhase ([⟨10, 3, 7⟩, ⟨11, 1, 7⟩, ⟨12, 2, 7⟩].map
        (mkTilemapItem 9 ⟨201326592⟩))).map Transparent2dItem.entity = [11, 12, 10] :=
  ⟨queue_meshes_sort_key_is_layer ⟨⟨0⟩, ⟨1⟩, ⟨2⟩, ⟨3⟩⟩ (BindingResource.buffer 50) 9 4
      [(7, ⟨100, 200⟩)] [] 0 [⟨10, 3, 7⟩, ⟨11, 1, 7⟩, ⟨12, 2, 7⟩] 1 [] (by decide),
   by decide⟩

/-- C9: when `DrawMesh` executes for a queued item whose GPU mesh is
present but has no index data, it fails fast with the fatal panic
`"non-indexed drawing not supported yet"` — the pass is aborted and in
particular no draw call is issued; when index data is present it binds the
vertex buffer, binds the index buffer, and issues exactly one indexed draw
covering the full index range `0..count`. -/
theorem DrawMesh_render_spec (meshes : List (Nat × GpuMesh))
    (mesh_handles : List (Nat × Nat)) (item : Transparent2dItem)
    (mesh_handle : Nat) (gpu_mesh : GpuMesh)
    (hh : lookup mesh_handles item.entity = some mesh_handle)
    (hm : lookup meshes mesh_handle = some gpu_mesh) :
    (gpu_mesh.index_info = none →
      DrawMesh_render meshes mesh_handles item =
        .error "non-indexed drawing not supported yet" ∧
      ∀ ops, DrawMesh_render meshes mesh_handles item ≠ .ok ops) ∧
    (∀ ii, gpu_mesh.index_info = some ii →
      DrawMesh_render meshes mesh_handles item =
        .ok [RenderPassOp.setVertexBuffer 0 gpu_mesh.vertex_buffer,
             RenderPassOp.setIndexBuffer ii.buffer 0 ii.index_format,
             RenderPassOp.drawIndexed 0 ii.count 0 0 1]) := by
  constructor
  · intro hni
    constructor
    · simp only [DrawMesh_render, hh, hm, hni]
    · intro ops
      simp only [DrawMesh_render, hh, hm, hni]
      simp
  · intro ii hii
    simp only [DrawMesh_render, hh, hm, hii]

/-- Witness for C9: a non-indexed GPU mesh aborts with the panic message;
an indexed one with 12 indices issues the full `0..12` indexed draw. -/
theorem DrawMesh_render_spec_witness :
    DrawMesh_render [(40, ⟨60, none⟩)] [(20, 40)] ⟨20, 9, 0, 1⟩ =
        .error "non-indexed drawing not supported yet" ∧
    DrawMesh_render [(41, ⟨61, some ⟨70, 12, IndexFormat.Uint32⟩⟩)] [(21, 41)] ⟨21, 9, 0, 2⟩ =
        .ok [RenderPassOp.setVertexBuffer 0 61,
             RenderPassOp.setIndexBuffer 70 0 IndexFormat.Uint32,
             RenderPassOp.drawIndexed 0 12 0 0 1] :=
  ⟨((DrawMesh_render_spec [(40, ⟨60, none⟩)] [(20, 40)] ⟨20, 9, 0, 1⟩ 40 ⟨60, none⟩
      (by decide) (by decide)).1 rfl).1,
   (DrawMesh_render_spec [(41, ⟨61, some ⟨70, 12, IndexFormat.Uint32⟩⟩)] [(21, 41)]
      ⟨21, 9, 0, 2⟩ 41 ⟨61, some ⟨70, 12, IndexFormat.Uint32⟩⟩ (by decide) (by decide)).2
      ⟨70, 12, IndexFormat.Uint32⟩ rfl⟩

end TilemapRender
